import Mathlib

/-!
Shallow embedding of the Light HAL in src/light/Light.cpp
(android_device_fxtec_pro1).

The service arbitrates three logical light sources (notification, attention,
battery) over one shared RGB LED, and drives LCD / keyboard / button
backlights.  Output sysfs files are modelled as a record of write-only sinks
holding the last written value; every setter is a pure state transformer.
Machine integers (uint32_t colors, int millisecond durations) are modelled as
Nat and Int with explicit masking where the code masks.
-/

set_option maxRecDepth 4000

/-- Flash mode of a light request (HIDL `Flash` enum). -/
inductive Flash where
  | NONE
  | TIMED
  | HARDWARE
deriving DecidableEq

/-- Embeds `LightState` from the HIDL interface: 32-bit ARGB color, flash mode and
on/off durations in milliseconds (C++ `int32_t`, modelled as `Int`). -/
structure LightState where
  color : Nat
  flashMode : Flash
  flashOnMs : Int
  flashOffMs : Int
deriving DecidableEq

/-- The HIDL `Type` enum of light types (V2.0). -/
inductive LightType where
  | BACKLIGHT
  | KEYBOARD
  | BUTTONS
  | BATTERY
  | NOTIFICATIONS
  | ATTENTION
  | BLUETOOTH
  | WIFI
deriving DecidableEq

/-- The HIDL `Status` return code of `setLight`. -/
inductive Status where
  | SUCCESS
  | LIGHT_NOT_SUPPORTED
deriving DecidableEq

/-- The write-only output sinks (sysfs files), each holding the last value
written to it.  Duty-percent tables are the list of comma-separated values
written in one line. -/
structure Sinks where
  lcd : Nat
  keyboard : Nat
  buttons : Nat
  redLed : Nat
  greenLed : Nat
  blueLed : Nat
  redBlink : Nat
  greenBlink : Nat
  blueBlink : Nat
  redDutyPcts : List Nat
  greenDutyPcts : List Nat
  blueDutyPcts : List Nat
  redStartIdx : Nat
  greenStartIdx : Nat
  blueStartIdx : Nat
  redPauseLo : Int
  greenPauseLo : Int
  bluePauseLo : Int
  redPauseHi : Int
  greenPauseHi : Int
  bluePauseHi : Int
  redRampStepMs : Int
  greenRampStepMs : Int
  blueRampStepMs : Int
deriving DecidableEq

/-- Full mutable state of the `Light` service object: the three stored
source states, the LCD-on and slider-open flags, the panel's maximum
brightness (`mLcdBacklight.second`) and the output sinks. -/
structure Light where
  notificationState : LightState
  attentionState : LightState
  batteryState : LightState
  lcdBacklightOn : Bool
  sliderOpen : Bool
  lcdMax : Nat
  sinks : Sinks
deriving DecidableEq

/-- Embeds `RAMP_SIZE` constant (Light.cpp line 31). -/
def RAMP_SIZE : Nat := 8

/-- Embeds `RAMP_STEP_DURATION` constant (Light.cpp line 32). -/
def RAMP_STEP_DURATION : Int := 50

/-- Embeds `BRIGHTNESS_RAMP` table (Light.cpp line 34). -/
def BRIGHTNESS_RAMP : List Nat := [0, 12, 25, 37, 50, 72, 85, 100]

/-- Embeds `DEFAULT_MAX_BRIGHTNESS` constant (Light.cpp line 35). -/
def DEFAULT_MAX_BRIGHTNESS : Nat := 255

/-- Embeds `rgbToBrightness` (Light.cpp lines 37-41): weighted luma of the
alpha-masked color. -/
def rgbToBrightness (state : LightState) : Nat :=
  let color := state.color &&& 0x00ffffff
  ((77 * ((color >>> 16) &&& 0xff)) + (150 * ((color >>> 8) &&& 0xff)) +
      (29 * (color &&& 0xff))) >>> 8

/-- Embeds `isLit` (Light.cpp lines 43-45): the color masked to its low 24 bits is
non-zero. -/
def isLit (state : LightState) : Bool :=
  state.color &&& 0x00ffffff != 0

/-- Embeds `getScaledDutyPcts` (Light.cpp lines 47-57): the 8-entry ramp scaled by
the channel value, truncating integer division by 255. -/
def getScaledDutyPcts (brightness : Nat) : List Nat :=
  BRIGHTNESS_RAMP.map (fun i => i * brightness / 255)

/-- The `onMs` chosen by the `switch (state.flashMode)` in
`setSpeakerLightLocked` (Light.cpp lines 325-335). -/
def flashOnOf (state : LightState) : Int :=
  match state.flashMode with
  | Flash.TIMED => state.flashOnMs
  | _ => 0

/-- The `offMs` chosen by the `switch (state.flashMode)` in
`setSpeakerLightLocked` (Light.cpp lines 325-335). -/
def flashOffOf (state : LightState) : Int :=
  match state.flashMode with
  | Flash.TIMED => state.flashOffMs
  | _ => 0

/-- Embeds `setSpeakerLightLocked` (Light.cpp lines 320-381): renders one light
state onto the shared RGB LED sinks.  In the blink branch `onMs > 0`, so the
C++ truncating division `onMs / (RAMP_SIZE * 2)` equals `Nat` division of
`onMs.toNat`. -/
def setSpeakerLightLocked (state : LightState) (s : Sinks) : Sinks :=
  let onMs := flashOnOf state
  let offMs := flashOffOf state
  let colorRGB := state.color
  let red := (colorRGB >>> 16) &&& 0xff
  let green := (colorRGB >>> 8) &&& 0xff
  let blue := colorRGB &&& 0xff
  let blink := decide (0 < onMs) && decide (0 < offMs)
  if blink then
    let stepDuration : Int :=
      if RAMP_STEP_DURATION * (RAMP_SIZE : Int) * 2 > onMs then
        ((onMs.toNat / (RAMP_SIZE * 2) : Nat) : Int)
      else RAMP_STEP_DURATION
    let pauseHi : Int :=
      if RAMP_STEP_DURATION * (RAMP_SIZE : Int) * 2 > onMs then 0
      else onMs - RAMP_STEP_DURATION * (RAMP_SIZE : Int) * 2
    { s with
      redStartIdx := 0
      redDutyPcts := getScaledDutyPcts red
      redPauseLo := offMs
      redPauseHi := pauseHi
      redRampStepMs := stepDuration
      greenStartIdx := RAMP_SIZE
      greenDutyPcts := getScaledDutyPcts green
      greenPauseLo := offMs
      greenPauseHi := pauseHi
      greenRampStepMs := stepDuration
      blueStartIdx := RAMP_SIZE * 2
      blueDutyPcts := getScaledDutyPcts blue
      bluePauseLo := offMs
      bluePauseHi := pauseHi
      blueRampStepMs := stepDuration }
  else
    let s1 :=
      if red == 0 && green == 0 && blue == 0 then
        { s with redBlink := 0, greenBlink := 0, blueBlink := 0 }
      else s
    { s1 with redLed := red, greenLed := green, blueLed := blue }

/-- Embeds `setSpeakerBatteryLightLocked` (Light.cpp lines 302-318): renders the
highest-priority lit source, or turns everything off. -/
def setSpeakerBatteryLightLocked (l : Light) : Sinks :=
  if isLit l.notificationState then
    setSpeakerLightLocked l.notificationState l.sinks
  else if isLit l.attentionState then
    setSpeakerLightLocked l.attentionState l.sinks
  else if isLit l.batteryState then
    setSpeakerLightLocked l.batteryState l.sinks
  else
    { l.sinks with
      redLed := 0, greenLed := 0, blueLed := 0
      redBlink := 0, greenBlink := 0, blueBlink := 0 }

/-- Embeds `setAttentionLight` (Light.cpp lines 216-220). -/
def setAttentionLight (state : LightState) (l : Light) : Light :=
  let l1 := { l with attentionState := state }
  { l1 with sinks := setSpeakerBatteryLightLocked l1 }

/-- Embeds `setBatteryLight` (Light.cpp lines 262-266). -/
def setBatteryLight (state : LightState) (l : Light) : Light :=
  let l1 := { l with batteryState := state }
  { l1 with sinks := setSpeakerBatteryLightLocked l1 }

/-- The notification brightness-override color rewrite performed by
`setNotificationLight` (Light.cpp lines 274-296) on `localState.color`. -/
def scaleNotificationColor (c0 : Nat) : Nat :=
  let brightness := (c0 &&& 0xff000000) >>> 24
  if decide (brightness > 0) && decide (brightness < 255) then
    let color := c0 &&& 0x00ffffff
    let r0 := (color >>> 16) &&& 0xff
    let g0 := (color >>> 8) &&& 0xff
    let b0 := color &&& 0xff
    let r1 := if r0 > 0 then (r0 * brightness) / 0xff else r0
    let g1 := if g0 > 0 then (g0 * brightness) / 0xff else g0
    let b1 := if b0 > 0 then (b0 * brightness) / 0xff else b0
    (r1 <<< 16) + (g1 <<< 8) + b1
  else c0

/-- Embeds `setNotificationLight` (Light.cpp lines 268-300): applies the brightness
override to the color, stores the state, re-renders the shared LED. -/
def setNotificationLight (state : LightState) (l : Light) : Light :=
  let localState := { state with color := scaleNotificationColor state.color }
  let l1 := { l with notificationState := localState }
  { l1 with sinks := setSpeakerBatteryLightLocked l1 }

/-- Embeds `setKeyboardBacklightLocked` (Light.cpp lines 242-250): keyboard
backlight is full iff the slider is open and the LCD is on. -/
def setKeyboardBacklightLocked (l : Light) : Light :=
  let v := if l.sliderOpen && l.lcdBacklightOn then DEFAULT_MAX_BRIGHTNESS else 0
  { l with sinks := { l.sinks with keyboard := v } }

/-- Embeds `setLcdBacklight` (Light.cpp lines 222-240): records whether the full
32-bit color is non-zero, writes the (possibly rescaled) luminance, then
recomputes the keyboard backlight. -/
def setLcdBacklight (state : LightState) (l : Light) : Light :=
  let lcdOn := state.color != 0
  let brightness := rgbToBrightness state
  let brightness1 :=
    if l.lcdMax != DEFAULT_MAX_BRIGHTNESS then
      brightness * l.lcdMax / DEFAULT_MAX_BRIGHTNESS
    else brightness
  let l1 := { l with
    lcdBacklightOn := lcdOn
    sinks := { l.sinks with lcd := brightness1 } }
  setKeyboardBacklightLocked l1

/-- Embeds `setButtonsBacklight` (Light.cpp lines 252-260): broadcasts the luminance
to the button channels (all receive the same value). -/
def setButtonsBacklight (state : LightState) (l : Light) : Light :=
  { l with sinks := { l.sinks with buttons := rgbToBrightness state } }

/-- Embeds `onSliderChanged` (Light.cpp lines 210-214): updates the slider flag and
re-renders the keyboard backlight only. -/
def onSliderChanged (openFlag : Bool) (l : Light) : Light :=
  setKeyboardBacklightLocked { l with sliderOpen := openFlag }

/-- Membership in the `mLights` dispatch map built in the constructor
(Light.cpp lines 175-179): exactly the five supported types. -/
def supportedType (t : LightType) : Bool :=
  match t with
  | LightType.ATTENTION => true
  | LightType.BACKLIGHT => true
  | LightType.BATTERY => true
  | LightType.BUTTONS => true
  | LightType.NOTIFICATIONS => true
  | _ => false

/-- Embeds `setLight` (Light.cpp lines 186-196): dispatch through `mLights`;
unknown types return `LIGHT_NOT_SUPPORTED` without calling any handler. -/
def setLight (t : LightType) (state : LightState) (l : Light) :
    Status × Light :=
  match t with
  | LightType.ATTENTION => (Status.SUCCESS, setAttentionLight state l)
  | LightType.BACKLIGHT => (Status.SUCCESS, setLcdBacklight state l)
  | LightType.BATTERY => (Status.SUCCESS, setBatteryLight state l)
  | LightType.BUTTONS => (Status.SUCCESS, setButtonsBacklight state l)
  | LightType.NOTIFICATIONS => (Status.SUCCESS, setNotificationLight state l)
  | _ => (Status.LIGHT_NOT_SUPPORTED, l)

/-- A zeroed sink record, used as a concrete starting point. -/
def sinks0 : Sinks :=
  { lcd := 0, keyboard := 0, buttons := 0
    redLed := 0, greenLed := 0, blueLed := 0
    redBlink := 0, greenBlink := 0, blueBlink := 0
    redDutyPcts := [], greenDutyPcts := [], blueDutyPcts := []
    redStartIdx := 0, greenStartIdx := 0, blueStartIdx := 0
    redPauseLo := 0, greenPauseLo := 0, bluePauseLo := 0
    redPauseHi := 0, greenPauseHi := 0, bluePauseHi := 0
    redRampStepMs := 0, greenRampStepMs := 0, blueRampStepMs := 0 }

/-- An all-off light state, the value of a default-constructed
`LightState`. -/
def state0 : LightState :=
  { color := 0, flashMode := Flash.NONE, flashOnMs := 0, flashOffMs := 0 }

/-- The service state right after construction (Light.cpp lines 168-169):
LCD-off, slider closed, default-constructed source states. -/
def initLight (max : Nat) (s : Sinks) : Light :=
  { notificationState := state0, attentionState := state0
    batteryState := state0, lcdBacklightOn := false, sliderOpen := false
    lcdMax := max, sinks := s }

/- ### Arithmetic helper lemmas -/

theorem and_ff_eq_mod (x : Nat) : x &&& 0xff = x % 256 := by
  have h := Nat.and_pow_two_sub_one_eq_mod x 8
  norm_num at h
  exact h

theorem and_ffffff_eq_mod (x : Nat) : x &&& 0xffffff = x % 16777216 := by
  have h := Nat.and_pow_two_sub_one_eq_mod x 24
  norm_num at h
  exact h

/-- Claim C5: the luminance used for the LCD, keyboard and button
brightnesses is the weighted channel sum `(77*R + 150*G + 29*B) >> 8` of the
full 32-bit color's RGB channels, and it is independent of the alpha byte:
`rgbToBrightness C = rgbToBrightness (C &&& 0x00ffffff)`. -/
theorem claim_C5 (st : LightState) :
    rgbToBrightness st =
      (77 * ((st.color >>> 16) &&& 0xff) + 150 * ((st.color >>> 8) &&& 0xff)
        + 29 * (st.color &&& 0xff)) >>> 8 ∧
    rgbToBrightness st = rgbToBrightness { st with color := st.color &&& 0x00ffffff } := by
  unfold rgbToBrightness
  simp only [Nat.shiftRight_eq_div_pow, and_ff_eq_mod, and_ffffff_eq_mod]
  norm_num
  all_goals omega

/-- Claim C1: a shared-LED render outputs exactly the render of the single
highest-priority lit source (notification > attention > battery, lit meaning
non-zero alpha-masked RGB): if notification is lit the output equals
rendering notification alone; if only attention (and possibly battery) is
lit it equals rendering attention alone; if only battery is lit it equals
rendering battery alone. -/
theorem claim_C1 (l : Light) :
    (isLit l.notificationState = true →
      setSpeakerBatteryLightLocked l =
        setSpeakerLightLocked l.notificationState l.sinks) ∧
    (isLit l.notificationState = false → isLit l.attentionState = true →
      setSpeakerBatteryLightLocked l =
        setSpeakerLightLocked l.attentionState l.sinks) ∧
    (isLit l.notificationState = false → isLit l.attentionState = false →
      isLit l.batteryState = true →
      setSpeakerBatteryLightLocked l =
        setSpeakerLightLocked l.batteryState l.sinks) := by
  refine ⟨fun h1 => ?_, fun h1 h2 => ?_, fun h1 h2 h3 => ?_⟩ <;>
    simp [setSpeakerBatteryLightLocked, *]

/-- A state in which all three sources are lit (notification red, attention
green, battery blue). -/
def lAllLit : Light :=
  { initLight 255 sinks0 with
    notificationState := { state0 with color := 0x00ff0000 }
    attentionState := { state0 with color := 0x0000ff00 }
    batteryState := { state0 with color := 0x000000ff } }

/-- A state in which only attention and battery are lit. -/
def lAttnBat : Light :=
  { initLight 255 sinks0 with
    attentionState := { state0 with color := 0x0000ff00 }
    batteryState := { state0 with color := 0x000000ff } }

theorem claim_C1_witness :
    (isLit lAllLit.notificationState = true ∧
      setSpeakerBatteryLightLocked lAllLit =
        setSpeakerLightLocked lAllLit.notificationState lAllLit.sinks) ∧
    (isLit lAttnBat.notificationState = false ∧
      isLit lAttnBat.attentionState = true ∧
      setSpeakerBatteryLightLocked lAttnBat =
        setSpeakerLightLocked lAttnBat.attentionState lAttnBat.sinks) :=
  ⟨⟨by decide, (claim_C1 lAllLit).1 (by decide)⟩,
   ⟨by decide, by decide, (claim_C1 lAttnBat).2.1 (by decide) (by decide)⟩⟩

/-- Claim C7: when no stored source is lit, the render writes 0 to the
brightness sink and 0 to the blink-enable sink of all three channels. -/
theorem claim_C7 (l : Light)
    (h1 : isLit l.notificationState = false)
    (h2 : isLit l.attentionState = false)
    (h3 : isLit l.batteryState = false) :
    (setSpeakerBatteryLightLocked l).redLed = 0 ∧
    (setSpeakerBatteryLightLocked l).greenLed = 0 ∧
    (setSpeakerBatteryLightLocked l).blueLed = 0 ∧
    (setSpeakerBatteryLightLocked l).redBlink = 0 ∧
    (setSpeakerBatteryLightLocked l).greenBlink = 0 ∧
    (setSpeakerBatteryLightLocked l).blueBlink = 0 := by
  simp [setSpeakerBatteryLightLocked, h1, h2, h3]

/-- A state reached by lighting the notification source and then setting its
color back to zero, with no other source lit. -/
def lZeroed : Light :=
  setNotificationLight state0
    (setNotificationLight { state0 with color := 0xffff0000 }
      (initLight 255 sinks0))

theorem claim_C7_witness :
    isLit lZeroed.notificationState = false ∧
    isLit lZeroed.attentionState = false ∧
    isLit lZeroed.batteryState = false ∧
    ((setSpeakerBatteryLightLocked lZeroed).redLed = 0 ∧
     (setSpeakerBatteryLightLocked lZeroed).greenLed = 0 ∧
     (setSpeakerBatteryLightLocked lZeroed).blueLed = 0 ∧
     (setSpeakerBatteryLightLocked lZeroed).redBlink = 0 ∧
     (setSpeakerBatteryLightLocked lZeroed).greenBlink = 0 ∧
     (setSpeakerBatteryLightLocked lZeroed).blueBlink = 0) :=
  ⟨by decide, by decide, by decide,
   claim_C7 lZeroed (by decide) (by decide) (by decide)⟩

/-- A sink state in which the blink path has previously been active: all
three blink-enable sinks hold 1. -/
def sinksBlinkOn : Sinks :=
  { sinks0 with redBlink := 1, greenBlink := 1, blueBlink := 1 }

/-- A steady non-zero light state: pure red, flash mode NONE. -/
def stSteadyRed : LightState :=
  { color := 0x00ff0000, flashMode := Flash.NONE, flashOnMs := 0, flashOffMs := 0 }

/-- Claim C2 counterexample: rendering a steady non-zero color (pure red,
flash mode NONE) over sinks whose blink-enable flags are set leaves all
three blink-enable flags at 1 — the render does not zero the previous
mode's enable flags, contradicting the claimed invariant. -/
theorem claim_C2_counterexample :
    (setSpeakerLightLocked stSteadyRed sinksBlinkOn).redLed = 255 ∧
    (setSpeakerLightLocked stSteadyRed sinksBlinkOn).redBlink = 1 ∧
    (setSpeakerLightLocked stSteadyRed sinksBlinkOn).greenBlink = 1 ∧
    (setSpeakerLightLocked stSteadyRed sinksBlinkOn).blueBlink = 1 := by
  decide

/-- Claim C2 (amended): in the steady (non-blink) path, the render zeroes
the per-channel blink-enable flags exactly when all three color channels
are zero; when any channel is non-zero the blink-enable sinks are left
unchanged, so switching from the blinking mode to a non-zero steady color
does not zero them. -/
theorem claim_C2_amended (st : LightState) (s : Sinks)
    (hb : (decide (0 < flashOnOf st) && decide (0 < flashOffOf st)) = false) :
    (((st.color >>> 16) &&& 0xff = 0 ∧ (st.color >>> 8) &&& 0xff = 0 ∧
        st.color &&& 0xff = 0) →
      (setSpeakerLightLocked st s).redBlink = 0 ∧
      (setSpeakerLightLocked st s).greenBlink = 0 ∧
      (setSpeakerLightLocked st s).blueBlink = 0) ∧
    (¬((st.color >>> 16) &&& 0xff = 0 ∧ (st.color >>> 8) &&& 0xff = 0 ∧
        st.color &&& 0xff = 0) →
      (setSpeakerLightLocked st s).redBlink = s.redBlink ∧
      (setSpeakerLightLocked st s).greenBlink = s.greenBlink ∧
      (setSpeakerLightLocked st s).blueBlink = s.blueBlink) := by
  unfold setSpeakerLightLocked
  simp only [hb, Bool.false_eq_true, if_false]
  constructor
  · intro h
    simp [h.1, h.2.1, h.2.2]
  · intro h
    have : ((st.color >>> 16) &&& 0xff == 0 && ((st.color >>> 8) &&& 0xff == 0)
        && (st.color &&& 0xff == 0)) = false := by
      rcases not_and_or.mp h with h1 | h23
      · simp [h1]
      rcases not_and_or.mp h23 with h2 | h3
      · simp [h2]
      · simp [h3]
    simp [this]

theorem claim_C2_amended_witness :
    ((decide (0 < flashOnOf stSteadyRed) && decide (0 < flashOffOf stSteadyRed)) = false) ∧
    ¬(((stSteadyRed.color >>> 16) &&& 0xff = 0 ∧
        (stSteadyRed.color >>> 8) &&& 0xff = 0 ∧
        stSteadyRed.color &&& 0xff = 0)) ∧
    ((setSpeakerLightLocked stSteadyRed sinksBlinkOn).redBlink = sinksBlinkOn.redBlink ∧
     (setSpeakerLightLocked stSteadyRed sinksBlinkOn).greenBlink = sinksBlinkOn.greenBlink ∧
     (setSpeakerLightLocked stSteadyRed sinksBlinkOn).blueBlink = sinksBlinkOn.blueBlink) :=
  ⟨by decide, by decide,
   (claim_C2_amended stSteadyRed sinksBlinkOn (by decide)).2 (by decide)⟩

/-- Claim C3: with flash mode TIMED and positive on/off durations, the blink
path writes step duration 50 and pause-high `flashOnMs - 50*16` when
`50*16 ≤ flashOnMs`, and otherwise step duration `flashOnMs / 16` (integer
division) with pause-high 0; pause-low equals `flashOffMs` on all three
channels. -/
theorem claim_C3 (st : LightState) (s : Sinks)
    (hm : st.flashMode = Flash.TIMED)
    (hOn : 0 < st.flashOnMs) (hOff : 0 < st.flashOffMs) :
    (50 * 16 ≤ st.flashOnMs →
      (setSpeakerLightLocked st s).redRampStepMs = 50 ∧
      (setSpeakerLightLocked st s).greenRampStepMs = 50 ∧
      (setSpeakerLightLocked st s).blueRampStepMs = 50 ∧
      (setSpeakerLightLocked st s).redPauseHi = st.flashOnMs - 50 * 16 ∧
      (setSpeakerLightLocked st s).greenPauseHi = st.flashOnMs - 50 * 16 ∧
      (setSpeakerLightLocked st s).bluePauseHi = st.flashOnMs - 50 * 16) ∧
    (st.flashOnMs < 50 * 16 →
      (setSpeakerLightLocked st s).redRampStepMs = ((st.flashOnMs.toNat / 16 : Nat) : Int) ∧
      (setSpeakerLightLocked st s).greenRampStepMs = ((st.flashOnMs.toNat / 16 : Nat) : Int) ∧
      (setSpeakerLightLocked st s).blueRampStepMs = ((st.flashOnMs.toNat / 16 : Nat) : Int) ∧
      (setSpeakerLightLocked st s).redPauseHi = 0 ∧
      (setSpeakerLightLocked st s).greenPauseHi = 0 ∧
      (setSpeakerLightLocked st s).bluePauseHi = 0) ∧
    ((setSpeakerLightLocked st s).redPauseLo = st.flashOffMs ∧
     (setSpeakerLightLocked st s).greenPauseLo = st.flashOffMs ∧
     (setSpeakerLightLocked st s).bluePauseLo = st.flashOffMs) := by
  have hOn2 : flashOnOf st = st.flashOnMs := by simp [flashOnOf, hm]
  have hOff2 : flashOffOf st = st.flashOffMs := by simp [flashOffOf, hm]
  unfold setSpeakerLightLocked
  simp only [hOn2, hOff2, RAMP_STEP_DURATION, RAMP_SIZE]
  norm_num [hOn, hOff]
  rcases lt_or_le st.flashOnMs (800 : Int) with hlt | hle
  · simp [hlt, not_le.mpr hlt, le_of_lt hlt]
  · simp [not_lt.mpr hle, hle]

/-- A TIMED blink request with onMs 1000 and offMs 500. -/
def stBlinkA : LightState :=
  { color := 0x00ff0000, flashMode := Flash.TIMED, flashOnMs := 1000, flashOffMs := 500 }

/-- A TIMED blink request with onMs 100 and offMs 500. -/
def stBlinkB : LightState :=
  { color := 0x00ff0000, flashMode := Flash.TIMED, flashOnMs := 100, flashOffMs := 500 }

theorem claim_C3_witness :
    (setSpeakerLightLocked stBlinkA sinks0).redPauseHi = 200 ∧
    (setSpeakerLightLocked stBlinkA sinks0).redRampStepMs = 50 ∧
    (setSpeakerLightLocked stBlinkB sinks0).redRampStepMs = 6 ∧
    (setSpeakerLightLocked stBlinkB sinks0).redPauseHi = 0 ∧
    (setSpeakerLightLocked stBlinkB sinks0).redPauseLo = 500 ∧
    (setSpeakerLightLocked stBlinkB sinks0).greenPauseLo = 500 ∧
    (setSpeakerLightLocked stBlinkB sinks0).bluePauseLo = 500 := by
  have hA := (claim_C3 stBlinkA sinks0 rfl (by decide) (by decide)).1 (by decide)
  have hB2 := (claim_C3 stBlinkB sinks0 rfl (by decide) (by decide)).2.1 (by decide)
  have hB3 := (claim_C3 stBlinkB sinks0 rfl (by decide) (by decide)).2.2
  refine ⟨?_, hA.1, ?_, hB2.2.2.2.1, hB3.1, hB3.2.1, hB3.2.2⟩
  · have := hA.2.2.2.1
    norm_num [stBlinkA] at this
    exact this
  · have := hB2.1
    norm_num [stBlinkB] at this
    exact this

theorem channel_bound (x : Nat) : x &&& 0xff < 256 := by
  rw [and_ff_eq_mod]
  exact Nat.mod_lt _ (by norm_num)

theorem scaled_channel_bound (c b : Nat) (hc : c < 256) (hb : b < 255) :
    c * b / 255 < 256 := by
  have h1 : c * b ≤ 255 * 254 := Nat.mul_le_mul (by omega) (by omega)
  have h2 : c * b / 255 ≤ 255 * 254 / 255 := Nat.div_le_div_right h1
  omega

theorem decode_channels (r g b : Nat) (hr : r < 256) (hg : g < 256)
    (hb : b < 256) :
    (((r <<< 16) + (g <<< 8) + b) >>> 16) &&& 0xff = r ∧
    (((r <<< 16) + (g <<< 8) + b) >>> 8) &&& 0xff = g ∧
    ((r <<< 16) + (g <<< 8) + b) &&& 0xff = b := by
  simp only [Nat.shiftLeft_eq, Nat.shiftRight_eq_div_pow, and_ff_eq_mod]
  norm_num
  omega

theorem channel_mask_eq (x : Nat) :
    ((x &&& 0x00ffffff) >>> 16) &&& 0xff = (x >>> 16) &&& 0xff ∧
    ((x &&& 0x00ffffff) >>> 8) &&& 0xff = (x >>> 8) &&& 0xff ∧
    (x &&& 0x00ffffff) &&& 0xff = x &&& 0xff := by
  simp only [and_ffffff_eq_mod, Nat.shiftRight_eq_div_pow, and_ff_eq_mod]
  norm_num
  omega

theorem if_scale_eq (x b : Nat) :
    (if 0 < x then x * b / 255 else x) = (if 0 < x then x * b / 255 else 0) := by
  split
  · rfl
  · omega

theorem scaleNotificationColor_channels (c0 : Nat)
    (h1 : 0 < (c0 &&& 0xff000000) >>> 24)
    (h2 : (c0 &&& 0xff000000) >>> 24 < 255) :
    (scaleNotificationColor c0 >>> 16) &&& 0xff =
      (if 0 < (c0 >>> 16) &&& 0xff then
        ((c0 >>> 16) &&& 0xff) * ((c0 &&& 0xff000000) >>> 24) / 255
       else 0) ∧
    (scaleNotificationColor c0 >>> 8) &&& 0xff =
      (if 0 < (c0 >>> 8) &&& 0xff then
        ((c0 >>> 8) &&& 0xff) * ((c0 &&& 0xff000000) >>> 24) / 255
       else 0) ∧
    scaleNotificationColor c0 &&& 0xff =
      (if 0 < c0 &&& 0xff then
        (c0 &&& 0xff) * ((c0 &&& 0xff000000) >>> 24) / 255
       else 0) := by
  have hcond : (decide (0 < (c0 &&& 0xff000000) >>> 24) &&
      decide ((c0 &&& 0xff000000) >>> 24 < 255)) = true := by
    simp [h1, h2]
  have hrb : ((c0 &&& 0x00ffffff) >>> 16) &&& 0xff < 256 := channel_bound _
  have hgb : ((c0 &&& 0x00ffffff) >>> 8) &&& 0xff < 256 := channel_bound _
  have hbb : (c0 &&& 0x00ffffff) &&& 0xff < 256 := channel_bound _
  have hr1 : (if 0 < ((c0 &&& 0x00ffffff) >>> 16) &&& 0xff then
      (((c0 &&& 0x00ffffff) >>> 16) &&& 0xff) * ((c0 &&& 0xff000000) >>> 24) / 255
      else ((c0 &&& 0x00ffffff) >>> 16) &&& 0xff) < 256 := by
    split
    · exact scaled_channel_bound _ _ hrb h2
    · exact hrb
  have hg1 : (if 0 < ((c0 &&& 0x00ffffff) >>> 8) &&& 0xff then
      (((c0 &&& 0x00ffffff) >>> 8) &&& 0xff) * ((c0 &&& 0xff000000) >>> 24) / 255
      else ((c0 &&& 0x00ffffff) >>> 8) &&& 0xff) < 256 := by
    split
    · exact scaled_channel_bound _ _ hgb h2
    · exact hgb
  have hb1 : (if 0 < (c0 &&& 0x00ffffff) &&& 0xff then
      ((c0 &&& 0x00ffffff) &&& 0xff) * ((c0 &&& 0xff000000) >>> 24) / 255
      else (c0 &&& 0x00ffffff) &&& 0xff) < 256 := by
    split
    · exact scaled_channel_bound _ _ hbb h2
    · exact hbb
  have hscale : scaleNotificationColor c0 =
      ((if 0 < ((c0 &&& 0x00ffffff) >>> 16) &&& 0xff then
          (((c0 &&& 0x00ffffff) >>> 16) &&& 0xff) * ((c0 &&& 0xff000000) >>> 24) / 255
        else ((c0 &&& 0x00ffffff) >>> 16) &&& 0xff) <<< 16) +
      ((if 0 < ((c0 &&& 0x00ffffff) >>> 8) &&& 0xff then
          (((c0 &&& 0x00ffffff) >>> 8) &&& 0xff) * ((c0 &&& 0xff000000) >>> 24) / 255
        else ((c0 &&& 0x00ffffff) >>> 8) &&& 0xff) <<< 8) +
      (if 0 < (c0 &&& 0x00ffffff) &&& 0xff then
          ((c0 &&& 0x00ffffff) &&& 0xff) * ((c0 &&& 0xff000000) >>> 24) / 255
        else (c0 &&& 0x00ffffff) &&& 0xff) := by
    simp only [scaleNotificationColor, hcond, if_true]
  rw [hscale]
  have hdec := decode_channels _ _ _ hr1 hg1 hb1
  rw [hdec.1, hdec.2.1, hdec.2.2]
  have hmask := channel_mask_eq c0
  rw [hmask.1, hmask.2.1, hmask.2.2]
  exact ⟨if_scale_eq _ _, if_scale_eq _ _, if_scale_eq _ _⟩

theorem scaleNotificationColor_id (c0 : Nat)
    (h : (c0 &&& 0xff000000) >>> 24 = 0 ∨ (c0 &&& 0xff000000) >>> 24 = 255) :
    scaleNotificationColor c0 = c0 := by
  have hcond : (decide (0 < (c0 &&& 0xff000000) >>> 24) &&
      decide ((c0 &&& 0xff000000) >>> 24 < 255)) = false := by
    rcases h with h | h <;> simp [h]
  simp [scaleNotificationColor, hcond]

/-- Claim C4: a NOTIFICATIONS call with top byte `b` strictly between 0 and
255 stores a state whose non-zero RGB channels are replaced by
`channel * b / 255` (integer truncation) — zero channels stay zero — and
with `b = 0` or `b = 255` the color is stored unmodified. -/
theorem claim_C4 (st : LightState) (l : Light) :
    (0 < (st.color &&& 0xff000000) >>> 24 →
     (st.color &&& 0xff000000) >>> 24 < 255 →
      ((setNotificationLight st l).notificationState.color >>> 16) &&& 0xff =
        (if 0 < (st.color >>> 16) &&& 0xff then
          ((st.color >>> 16) &&& 0xff) * ((st.color &&& 0xff000000) >>> 24) / 255
         else 0) ∧
      ((setNotificationLight st l).notificationState.color >>> 8) &&& 0xff =
        (if 0 < (st.color >>> 8) &&& 0xff then
          ((st.color >>> 8) &&& 0xff) * ((st.color &&& 0xff000000) >>> 24) / 255
         else 0) ∧
      (setNotificationLight st l).notificationState.color &&& 0xff =
        (if 0 < st.color &&& 0xff then
          (st.color &&& 0xff) * ((st.color &&& 0xff000000) >>> 24) / 255
         else 0)) ∧
    (((st.color &&& 0xff000000) >>> 24 = 0 ∨
      (st.color &&& 0xff000000) >>> 24 = 255) →
      (setNotificationLight st l).notificationState.color = st.color) := by
  have hglue : (setNotificationLight st l).notificationState.color =
      scaleNotificationColor st.color := rfl
  rw [hglue]
  exact ⟨fun h1 h2 => scaleNotificationColor_channels st.color h1 h2,
         fun h => scaleNotificationColor_id st.color h⟩

/-- A notification request with brightness byte 128 and pure red RGB. -/
def stNotifHalf : LightState :=
  { color := 0x80ff0000, flashMode := Flash.NONE, flashOnMs := 0, flashOffMs := 0 }

/-- A notification request with brightness byte 255 (opaque alpha). -/
def stNotifFull : LightState :=
  { color := 0xff00ff00, flashMode := Flash.NONE, flashOnMs := 0, flashOffMs := 0 }

theorem claim_C4_witness :
    (0 < (stNotifHalf.color &&& 0xff000000) >>> 24 ∧
     (stNotifHalf.color &&& 0xff000000) >>> 24 < 255 ∧
     ((setNotificationLight stNotifHalf (initLight 255 sinks0)).notificationState.color >>> 16)
        &&& 0xff = 128) ∧
    (((stNotifFull.color &&& 0xff000000) >>> 24 = 0 ∨
      (stNotifFull.color &&& 0xff000000) >>> 24 = 255) ∧
     (setNotificationLight stNotifFull (initLight 255 sinks0)).notificationState.color
        = stNotifFull.color) :=
  ⟨⟨by decide, by decide, by
      have h := (claim_C4 stNotifHalf (initLight 255 sinks0)).1 (by decide) (by decide)
      rw [h.1]
      decide⟩,
   ⟨by decide,
    (claim_C4 stNotifFull (initLight 255 sinks0)).2 (by decide)⟩⟩

/-- Claim C6: after a BACKLIGHT render or a slider change, the keyboard
backlight is 255 iff the slider is open and the (full 32-bit) LCD color just
written is non-zero (respectively the stored LCD-on flag holds), and 0
otherwise; in particular toggling the slider while the LCD is off keeps the
keyboard backlight at 0. -/
theorem claim_C6 (l : Light) (st : LightState) (b : Bool) :
    ((setLcdBacklight st l).sinks.keyboard =
      if l.sliderOpen && (st.color != 0) then 255 else 0) ∧
    ((onSliderChanged b l).sinks.keyboard =
      if b && l.lcdBacklightOn then 255 else 0) ∧
    (l.lcdBacklightOn = false → (onSliderChanged b l).sinks.keyboard = 0) := by
  refine ⟨rfl, rfl, fun h => ?_⟩
  simp [onSliderChanged, setKeyboardBacklightLocked, h]

theorem claim_C6_witness :
    (initLight 255 sinks0).lcdBacklightOn = false ∧
    (onSliderChanged true (initLight 255 sinks0)).sinks.keyboard = 0 :=
  ⟨by decide,
   (claim_C6 (initLight 255 sinks0) state0 true).2.2 (by decide)⟩

/-- Claim C8: `setLight` on a type outside the supported set returns
`LIGHT_NOT_SUPPORTED` and leaves the whole service state (stored sources,
flags and all sinks) unchanged; on a supported type it returns `SUCCESS`. -/
theorem claim_C8 (t : LightType) (st : LightState) (l : Light) :
    (supportedType t = false →
      setLight t st l = (Status.LIGHT_NOT_SUPPORTED, l)) ∧
    (supportedType t = true → (setLight t st l).1 = Status.SUCCESS) := by
  cases t <;> simp [setLight, supportedType]

theorem claim_C8_witness :
    (supportedType LightType.BLUETOOTH = false ∧
      setLight LightType.BLUETOOTH stSteadyRed (initLight 255 sinks0) =
        (Status.LIGHT_NOT_SUPPORTED, initLight 255 sinks0)) ∧
    (supportedType LightType.BATTERY = true ∧
      (setLight LightType.BATTERY stSteadyRed (initLight 255 sinks0)).1 =
        Status.SUCCESS) :=
  ⟨⟨by decide,
    (claim_C8 LightType.BLUETOOTH stSteadyRed (initLight 255 sinks0)).1 (by decide)⟩,
   ⟨by decide,
    (claim_C8 LightType.BATTERY stSteadyRed (initLight 255 sinks0)).2 (by decide)⟩⟩

/-- Claim C9: a slider change updates only the slider-open flag and rewrites
only the keyboard backlight sink; the three stored source states, the other
flags and every RGB-LED sink are unchanged. -/
theorem claim_C9 (b : Bool) (l : Light) :
    (onSliderChanged b l).notificationState = l.notificationState ∧
    (onSliderChanged b l).attentionState = l.attentionState ∧
    (onSliderChanged b l).batteryState = l.batteryState ∧
    (onSliderChanged b l).lcdBacklightOn = l.lcdBacklightOn ∧
    (onSliderChanged b l).lcdMax = l.lcdMax ∧
    (onSliderChanged b l).sliderOpen = b ∧
    (onSliderChanged b l).sinks.lcd = l.sinks.lcd ∧
    (onSliderChanged b l).sinks.buttons = l.sinks.buttons ∧
    (onSliderChanged b l).sinks.redLed = l.sinks.redLed ∧
    (onSliderChanged b l).sinks.greenLed = l.sinks.greenLed ∧
    (onSliderChanged b l).sinks.blueLed = l.sinks.blueLed ∧
    (onSliderChanged b l).sinks.redBlink = l.sinks.redBlink ∧
    (onSliderChanged b l).sinks.greenBlink = l.sinks.greenBlink ∧
    (onSliderChanged b l).sinks.blueBlink = l.sinks.blueBlink ∧
    (onSliderChanged b l).sinks.redDutyPcts = l.sinks.redDutyPcts ∧
    (onSliderChanged b l).sinks.greenDutyPcts = l.sinks.greenDutyPcts ∧
    (onSliderChanged b l).sinks.blueDutyPcts = l.sinks.blueDutyPcts ∧
    (onSliderChanged b l).sinks.redStartIdx = l.sinks.redStartIdx ∧
    (onSliderChanged b l).sinks.greenStartIdx = l.sinks.greenStartIdx ∧
    (onSliderChanged b l).sinks.blueStartIdx = l.sinks.blueStartIdx ∧
    (onSliderChanged b l).sinks.redPauseLo = l.sinks.redPauseLo ∧
    (onSliderChanged b l).sinks.greenPauseLo = l.sinks.greenPauseLo ∧
    (onSliderChanged b l).sinks.bluePauseLo = l.sinks.bluePauseLo ∧
    (onSliderChanged b l).sinks.redPauseHi = l.sinks.redPauseHi ∧
    (onSliderChanged b l).sinks.greenPauseHi = l.sinks.greenPauseHi ∧
    (onSliderChanged b l).sinks.bluePauseHi = l.sinks.bluePauseHi ∧
    (onSliderChanged b l).sinks.redRampStepMs = l.sinks.redRampStepMs ∧
    (onSliderChanged b l).sinks.greenRampStepMs = l.sinks.greenRampStepMs ∧
    (onSliderChanged b l).sinks.blueRampStepMs = l.sinks.blueRampStepMs :=
  ⟨rfl, rfl, rfl, rfl, rfl, rfl, rfl, rfl, rfl, rfl, rfl, rfl, rfl, rfl,
   rfl, rfl, rfl, rfl, rfl, rfl, rfl, rfl, rfl, rfl, rfl, rfl, rfl, rfl, rfl⟩

/-- Claim C10: the LCD-on flag uses the full 32-bit color while the written
brightness ignores alpha: a BACKLIGHT call whose color has zero RGB but is
itself non-zero (alpha-only) writes LCD brightness 0 yet sets the LCD-on
flag, so with the slider open the keyboard backlight is set to 255. -/
theorem claim_C10 (l : Light) (st : LightState)
    (hrgb : st.color &&& 0x00ffffff = 0) (hcol : st.color ≠ 0) :
    (setLcdBacklight st l).sinks.lcd = 0 ∧
    (setLcdBacklight st l).lcdBacklightOn = true ∧
    (l.sliderOpen = true → (setLcdBacklight st l).sinks.keyboard = 255) := by
  have hbr : rgbToBrightness st = 0 := by
    unfold rgbToBrightness
    rw [hrgb]
    decide
  have hon : (st.color != 0) = true := by
    simp [hcol]
  refine ⟨?_, ?_, fun hs => ?_⟩
  · simp [setLcdBacklight, setKeyboardBacklightLocked, hbr]
  · simp [setLcdBacklight, setKeyboardBacklightLocked, hon]
  · simp [setLcdBacklight, setKeyboardBacklightLocked, hon, hs,
      DEFAULT_MAX_BRIGHTNESS]

/-- An alpha-only color: zero RGB, non-zero alpha byte. -/
def stAlphaOnly : LightState :=
  { color := 0xff000000, flashMode := Flash.NONE, flashOnMs := 0, flashOffMs := 0 }

/-- The initial service state with the slider open. -/
def lSliderOpen : Light := { initLight 255 sinks0 with sliderOpen := true }

theorem claim_C10_witness :
    stAlphaOnly.color &&& 0x00ffffff = 0 ∧ stAlphaOnly.color ≠ 0 ∧
    lSliderOpen.sliderOpen = true ∧
    ((setLcdBacklight stAlphaOnly lSliderOpen).sinks.lcd = 0 ∧
     (setLcdBacklight stAlphaOnly lSliderOpen).lcdBacklightOn = true ∧
     (setLcdBacklight stAlphaOnly lSliderOpen).sinks.keyboard = 255) :=
  ⟨by decide, by decide, by decide, by
    have h := claim_C10 lSliderOpen stAlphaOnly (by decide) (by decide)
    exact ⟨h.1, h.2.1, h.2.2 (by decide)⟩⟩
